import Mathlib

/-!
Verification of the capture-and-stream pipeline of the
real-time-audio-video-analysis client.

The definitions below are a shallow embedding of the TypeScript source:

* `StreamChannel` (src/hooks/useWebSocket.ts): URL protocol rewriting in
  `connect`, and the `ws.onclose` reconnection logic with exponential
  backoff and a retry ceiling.
* Deepgram proxy channel (src/hooks/useDeepgramTranscription.ts): the URL
  rewriting performed by its `connect`.
* `RecorderNegotiator` / `AudioChunkAggregator` / `stopMediaCapture`
  (src/components/MediaCapture.tsx).
* `useWebSpeechAPI` recognition event handlers (src/hooks/useAIInsights.ts,
  second document in the file).
* The `/api/vision-analysis` route handler
  (src/app/api/vision-analysis/route.ts).

Stateful React hooks are embedded as explicit state-passing functions; an
event handler reads the state as it is at handler entry and returns the
updated state (plus a description of the side effects it schedules).
-/

namespace StreamChannel

/-- Models the JavaScript `url.startsWith('wss://')`: the first six
characters of the URL are `wss://`. -/
def startsWithWss (url : String) : Bool :=
  url.data.take 6 == "wss://".data

/-- Models the JavaScript `url.replace('wss://', 'ws://')` as used in
`useWebSocket.ts` and `useDeepgramTranscription.ts`.  At both call sites the
call is guarded by `url.startsWith('wss://')`, so the first occurrence of
`"wss://"` replaced by JS `String.replace` is exactly the 6-character
prefix. -/
def wssToWs (url : String) : String :=
  if startsWithWss url then "ws://" ++ String.mk (url.data.drop 6) else url

/-- Embeds `connect` in `useWebSocket.ts` (lines 37-52): the final URL that is
dialed, paired with whether the protocol downgrade was reported to the
caller via `setError` (a non-fatal warning message).  The downgrade fires
exactly when the requested URL starts with `wss://` and the page was not
loaded over `https:`. -/
def connectFinalUrl (isHttps : Bool) (url : String) : String × Bool :=
  if startsWithWss url && !isHttps then (wssToWs url, true)
  else (url, false)

/-- The `maxRetries` constant in `useWebSocket.ts` (line 29). -/
def maxRetries : Nat := 5

/-- The `shouldReconnect` condition computed in `ws.onclose` (lines 127-130): reconnect
only when the close code is none of 1000 (normal closure), 1001 (going
away), 1005 (no status received) and the retry counter is still below
`maxRetries`. -/
def shouldReconnect (code retryCount : Nat) : Bool :=
  code != 1000 && code != 1001 && code != 1005 && decide (retryCount < maxRetries)

/-- The backoff delay `Math.min(1000 * Math.pow(2, retryCount), 10000)`
computed at line 134, evaluated after `retryCount++`. -/
def backoffDelay (n : Nat) : Nat := min (1000 * 2 ^ n) 10000

/-- The reconnection a single `ws.onclose` event schedules: `some delay`
when a reconnect timer is installed, `none` otherwise.  `retryCount` is the
value of the counter when the close event arrives; the code increments it
first and then computes the delay from the incremented value. -/
def onCloseSchedule (code retryCount : Nat) : Option Nat :=
  if shouldReconnect code retryCount then some (backoffDelay (retryCount + 1))
  else none

/-- The terminal error message set at line 142 of `useWebSocket.ts`. -/
def terminalErrorMsg : String :=
  "WebSocket connection failed after multiple attempts. Please check if the server is running."

/-- Channel state relevant to the reconnection logic: the retry counter,
the number of connection attempts made so far (each scheduled reconnect
runs `connect()` again), and the surfaced error, if any. -/
structure ChannelState where
  retryCount : Nat
  attempts : Nat
  errorMsg : Option String
  deriving DecidableEq, Repr

/-- State right after the initial `connect()` call of the effect:
one attempt made, counter zero, no error. -/
def initChannel : ChannelState := ⟨0, 1, none⟩

/-- The `ws.onclose` handler (lines 121-146) as a state transition: when a
reconnect is warranted the counter is bumped and another attempt is
scheduled (and eventually made); otherwise, if the counter has reached the
ceiling, the terminal error is surfaced; otherwise (a normal close before
the ceiling) nothing happens. -/
def onClose (code : Nat) (s : ChannelState) : ChannelState :=
  if shouldReconnect code s.retryCount then
    { retryCount := s.retryCount + 1, attempts := s.attempts + 1, errorMsg := s.errorMsg }
  else if maxRetries ≤ s.retryCount then
    { s with errorMsg := some terminalErrorMsg }
  else s

/-- State after `n` consecutive abnormal closes (code 1006) starting from the freshly
connected channel. -/
def afterAbnormalCloses (n : Nat) : ChannelState :=
  (onClose 1006)^[n] initChannel

end StreamChannel

namespace DeepgramChannel

/-- Embeds `connect` in `useDeepgramTranscription.ts` (lines 21-38): the final URL
passed to `new WebSocket`.  It first applies the same wss-to-ws downgrade
as `useWebSocket.ts` (without any report to the caller — there is only a
`console.warn`), and then, if the page host is localhost, overrides the
whole URL with `ws(s)://localhost:4000` regardless of what was requested. -/
def deepgramFinalUrl (isHttps isLocalhost : Bool) (url : String) : String :=
  let u :=
    if StreamChannel.startsWithWss url && !isHttps then StreamChannel.wssToWs url
    else url
  if isLocalhost then
    if isHttps then "wss://localhost:4000" else "ws://localhost:4000"
  else u

end DeepgramChannel

namespace RecorderNegotiator

/-- One entry of the `configs` candidate list in `startMediaCapture`
(src/components/MediaCapture.tsx, lines 65-71), together with how the
runtime behaves on it: whether `MediaRecorder.isTypeSupported(mimeType)`
returns true, and whether a trial recorder built from it fires `onstart`
within the 1 s timeout (lines 90-112). -/
structure RecorderCandidate where
  mimeType : String
  supported : Bool
  startsWithinTimeout : Bool
  deriving DecidableEq, Repr

/-- The gate at line 79: the empty default type is always admitted,
otherwise the platform must report the type supported. -/
def passesTypeGate (c : RecorderCandidate) : Bool :=
  c.mimeType == "" || c.supported

/-- A candidate wins the trial when it passes the type gate and its trial
recorder fires `onstart` before the 1 s timeout. -/
def trialSucceeds (c : RecorderCandidate) : Bool :=
  passesTypeGate c && c.startsWithinTimeout

/-- A trial `MediaRecorder` instance constructed during negotiation and
whether it was explicitly stopped (`testRecorder.stop()` in the `onstart`
handler, line 97). -/
structure TrialRecord where
  cand : RecorderCandidate
  stopped : Bool
  deriving DecidableEq, Repr

/-- The candidate loop of `startMediaCapture` (lines 74-123): candidates
failing the type gate are skipped without constructing a trial; a candidate
passing the gate gets a trial recorder; if the trial fires `onstart` it is
stopped immediately and the candidate is retained (`break`); if it errors
or times out, the exception is caught and the loop continues. -/
def negotiateRecorder : List RecorderCandidate → Option RecorderCandidate × List TrialRecord
  | [] => (none, [])
  | c :: rest =>
    if passesTypeGate c then
      if c.startsWithinTimeout then (some c, [⟨c, true⟩])
      else
        let r := negotiateRecorder rest
        (r.1, ⟨c, false⟩ :: r.2)
    else negotiateRecorder rest

/-- Outcome of the audio-setup section of `startMediaCapture`: the live
recorder configuration, if any, and whether capture proceeds to streaming.
When no config works the code logs a warning and continues without audio
recording (lines 125-127); `setIsStreaming(true)` runs either way
(line 207). -/
structure AudioSetupOutcome where
  recorder : Option RecorderCandidate
  streaming : Bool
  deriving DecidableEq, Repr

/-- The audio-setup section of `startMediaCapture` for a given candidate
list. -/
def setupAudioRecording (cs : List RecorderCandidate) : AudioSetupOutcome :=
  { recorder := (negotiateRecorder cs).1, streaming := true }

end RecorderNegotiator

namespace AudioAggregator

/-- The `ondataavailable` handler (MediaCapture.tsx, lines 151-155): a
fragment is appended to `audioChunks` only when it is non-empty.  A blob is
modelled as its byte list. -/
def pushFragment (buf : List (List Nat)) (frag : List Nat) : List (List Nat) :=
  if frag.length > 0 then buf ++ [frag] else buf

/-- Embeds `sendCollectedAudio` (lines 142-149): when the buffer is non-empty,
all collected fragments are combined in order into one blob; the blob is
dispatched through `onAudioData` only when its size exceeds 1000 bytes, and
the buffer is cleared in either case.  Returns the dispatched chunk (if
any) and the buffer after the flush. -/
def sendCollectedAudio (buf : List (List Nat)) : Option (List Nat) × List (List Nat) :=
  if buf.length > 0 then
    let combined := buf.flatten
    (if combined.length > 1000 then some combined else none, [])
  else (none, buf)

end AudioAggregator

namespace MediaCapture

/-- The run state of a `MediaRecorder` instance. -/
inductive RecorderRunState where
  | recording
  | paused
  | inactive
  deriving DecidableEq, Repr

/-- The mutable refs and flags of the `MediaCapture` component that
`stopMediaCapture` touches (MediaCapture.tsx, lines 341-375).  Tracks are
modelled by their stopped flag; each `...Ref` field records whether the ref
currently holds a value (for the recorder, together with its run state). -/
structure CaptureState where
  tracks : List Bool
  streamRef : Bool
  recorderRef : Option RecorderRunState
  frameInterval : Bool
  audioChunkTimer : Bool
  animationFrame : Bool
  audioContextRef : Bool
  analyserRef : Bool
  audioChunks : List (List Nat)
  isStreaming : Bool
  deriving DecidableEq, Repr

/-- Embeds `stopMediaCapture` (lines 341-375): stop every track and clear the
stream ref; stop the recorder and null its ref if it is held and not
already inactive (stopping it fires its `onstop` handler, which flushes the
fragment buffer, lines 167-174); clear both interval timers and the
animation frame; close the audio context and null both it and the analyser
when the context ref is held; set the streaming flag false. -/
def stopMediaCapture (s : CaptureState) : CaptureState :=
  let tracks := if s.streamRef then s.tracks.map (fun _ => true) else s.tracks
  let recorderStopsNow : Bool :=
    match s.recorderRef with
    | some st => st != RecorderRunState.inactive
    | none => false
  let recorderRef :=
    match s.recorderRef with
    | some st => if st = RecorderRunState.inactive then some st else none
    | none => none
  let audioChunks :=
    if recorderStopsNow then (AudioAggregator.sendCollectedAudio s.audioChunks).2
    else s.audioChunks
  { tracks := tracks
    streamRef := false
    recorderRef := recorderRef
    frameInterval := false
    audioChunkTimer := false
    animationFrame := false
    audioContextRef := false
    analyserRef := if s.audioContextRef then false else s.analyserRef
    audioChunks := audioChunks
    isStreaming := false }

/-- The component state when nothing is running: every ref null, every
flag false, no pending fragments. -/
def idleCaptureState : CaptureState :=
  ⟨[], false, none, false, false, false, false, false, [], false⟩

end MediaCapture

namespace WebSpeech

/-- The state of the `useWebSpeechAPI` hook that the recognition event
handlers read and write (useAIInsights.ts, second document): the
`isListening` flag and the surfaced error.  Handlers read the values as
they stand at handler entry. -/
structure SpeechState where
  isListening : Bool
  error : Option String
  deriving DecidableEq, Repr

/-- The classified `event.error` values the `recognition.onerror` handler
switches on (lines 394-428 of the cited file). -/
inductive RecognitionErrorKind where
  | noSpeech
  | audioCapture
  | notAllowed
  | network
  | serviceNotAllowed
  | other (code : String)
  deriving DecidableEq, Repr

/-- Embeds `recognition.onerror`: a `no-speech` event returns before touching any
state; every other kind sets a descriptive error message and clears the
listening flag. -/
def recOnError (s : SpeechState) : RecognitionErrorKind → SpeechState
  | .noSpeech => s
  | .audioCapture => ⟨false, some "Microphone access denied or not available"⟩
  | .notAllowed =>
      ⟨false, some "Microphone permission denied. Please allow microphone access."⟩
  | .network => ⟨false, some "Network error during speech recognition"⟩
  | .serviceNotAllowed => ⟨false, some "Speech recognition service not allowed"⟩
  | .other code => ⟨false, some ("Speech recognition error: " ++ code)⟩

/-- Embeds `recognition.onend` (lines 377-392): clears the listening flag, and
schedules the 100 ms auto-restart exactly when the listening flag was set
at handler entry and no error is set.  Returns the updated state and
whether a restart was scheduled. -/
def recOnEnd (s : SpeechState) : SpeechState × Bool :=
  (⟨false, s.error⟩, s.isListening && s.error.isNone)

/-- Embeds `stopListening` (lines 512-517): calls `recognition.stop()` on the
engine handle; it changes neither the listening flag nor the error state —
the engine later reacts with an `ended` event. -/
def stopListening (s : SpeechState) : SpeechState := s

/-- A session that is actively listening with no surfaced error (the state
after a successful `onstart`). -/
def activeSession : SpeechState := ⟨true, none⟩

end WebSpeech

namespace VisionRoute

/-- JavaScript truthiness of the `base64Image` field of the parsed request
body: absent/null and the empty string are falsy. -/
def isTruthyImage : Option String → Bool
  | none => false
  | some s => !(s == "")

/-- The backend's response to the forwarded `/vision-analysis` request:
its `ok` flag, status code, error body text and (when ok) JSON result. -/
structure BackendResponse where
  ok : Bool
  status : Nat
  bodyText : String
  resultJson : String
  deriving DecidableEq, Repr

/-- The JSON body the route handler answers with. -/
inductive RouteBody where
  | errorBody (msg : String)
  | resultBody (result : String)
  deriving DecidableEq, Repr

/-- The route handler's observable outcome: HTTP status, body, and whether
the backend was contacted at all. -/
structure RouteResponse where
  status : Nat
  body : RouteBody
  backendContacted : Bool
  deriving DecidableEq, Repr

/-- Embeds `POST` in src/app/api/vision-analysis/route.ts (lines 3-30): a request
without a truthy `base64Image` is answered 400 with
`{error: "Image is required"}` before any backend call; otherwise the
backend is contacted and a non-ok backend response is propagated as
`{error: <backend text>}` with the backend's status; an ok response is
wrapped as `{result}` (status 200, the `NextResponse.json` default). -/
def visionAnalysisPOST (base64Image : Option String) (backend : BackendResponse) :
    RouteResponse :=
  if isTruthyImage base64Image then
    if backend.ok then ⟨200, .resultBody backend.resultJson, true⟩
    else ⟨backend.status, .errorBody backend.bodyText, true⟩
  else ⟨400, .errorBody "Image is required", false⟩

end VisionRoute

namespace AudioAggregator

/-- A 600-byte fragment, for the flush scenarios of the spec. -/
def b600 : List Nat := List.replicate 600 0

/-- A 200-byte fragment, for the flush scenarios of the spec. -/
def b200 : List Nat := List.replicate 200 0

end AudioAggregator

open StreamChannel DeepgramChannel RecorderNegotiator AudioAggregator
open MediaCapture WebSpeech VisionRoute

/-- Closing a channel whose retry counter has reached the ceiling changes
neither the counter nor the number of attempts. -/
theorem onClose_at_ceiling (code : Nat) (s : ChannelState)
    (h : s.retryCount = maxRetries) :
    (onClose code s).retryCount = maxRetries ∧
    (onClose code s).attempts = s.attempts := by
  unfold onClose shouldReconnect
  simp [h, maxRetries]

/-- Iterating abnormal closes on a channel at the retry ceiling never adds
an attempt. -/
theorem iterate_onClose_at_ceiling (s : ChannelState)
    (h : s.retryCount = maxRetries) :
    ∀ k : Nat, ((onClose 1006)^[k] s).retryCount = maxRetries ∧
      ((onClose 1006)^[k] s).attempts = s.attempts := by
  intro k
  induction k generalizing s with
  | zero => exact ⟨h, rfl⟩
  | succ n ih =>
      have step := onClose_at_ceiling 1006 s h
      have := ih (onClose 1006 s) step.1
      rw [Function.iterate_succ_apply]
      exact ⟨this.1, this.2.trans step.2⟩

/-- C1: the claim as stated is false on the code: on a close with code
1005 — which is neither 1000 nor 1001 — and retry counter 0 < 5, `onclose`
schedules no reconnection attempt (1005 is in the code's non-reconnect
list alongside 1000 and 1001). -/
theorem C1_counterexample :
    1005 ≠ 1000 ∧ 1005 ≠ 1001 ∧ 0 < maxRetries ∧
    onCloseSchedule 1005 0 = none := by
  refine ⟨by decide, by decide, by decide, ?_⟩
  rfl

/-- C1 (amended): close codes 1000, 1001 and 1005 never schedule a
reconnection, nor does any close once the retry counter has reached the
ceiling of 5; for every other code with the counter below 5 a reconnection
is scheduled with delay `min(1000·2^n, 10000)` where `n` is the retry
number of the scheduled attempt (the incremented counter). -/
theorem C1_reconnect_policy (code retryCount : Nat) :
    (code = 1000 ∨ code = 1001 ∨ code = 1005 →
      onCloseSchedule code retryCount = none) ∧
    (maxRetries ≤ retryCount → onCloseSchedule code retryCount = none) ∧
    (code ≠ 1000 → code ≠ 1001 → code ≠ 1005 → retryCount < maxRetries →
      onCloseSchedule code retryCount =
        some (min (1000 * 2 ^ (retryCount + 1)) 10000)) := by
  refine ⟨?_, ?_, ?_⟩
  · rintro (rfl | rfl | rfl) <;>
      simp [onCloseSchedule, shouldReconnect]
  · intro h
    simp [onCloseSchedule, shouldReconnect, Nat.not_lt.mpr h]
  · intro h1 h2 h3 h4
    simp [onCloseSchedule, shouldReconnect, backoffDelay, h1, h2, h3, h4]

/-- Witness for `C1_reconnect_policy` at concrete inputs: normal closure
1000 never reconnects, an abnormal close at the ceiling never reconnects,
and an abnormal close at counter 2 schedules the third retry after
`min(1000·2^3, 10000) = 8000` ms. -/
theorem C1_reconnect_policy_witness :
    onCloseSchedule 1000 0 = none ∧
    onCloseSchedule 1006 5 = none ∧
    onCloseSchedule 1006 2 = some 8000 := by
  refine ⟨(C1_reconnect_policy 1000 0).1 (Or.inl rfl),
          (C1_reconnect_policy 1006 5).2.1 (by decide), ?_⟩
  have h := (C1_reconnect_policy 1006 2).2.2 (by decide) (by decide)
    (by decide) (by decide)
  simpa using h

/-- C2: the claim as stated is false on the code: after exactly five
consecutive abnormal closes six attempts have indeed been made, but no
terminal connection-failed error has been surfaced yet (the error state is
still `none`). -/
theorem C2_counterexample :
    (afterAbnormalCloses 5).attempts = 6 ∧
    (afterAbnormalCloses 5).errorMsg = none := by
  exact ⟨rfl, rfl⟩

/-- C2 (amended): after five consecutive abnormal closes exactly six
connection attempts have been made (the initial one plus five retries) and
no further attempt is ever scheduled no matter how many more abnormal
closes arrive; the terminal connection-failed error is surfaced when the
sixth attempt itself closes abnormally (the sixth consecutive abnormal
close), not before. -/
theorem C2_retry_exhaustion :
    (afterAbnormalCloses 5).attempts = 6 ∧
    (afterAbnormalCloses 6).errorMsg = some terminalErrorMsg ∧
    ∀ k : Nat, (afterAbnormalCloses (5 + k)).attempts = 6 := by
  refine ⟨rfl, rfl, ?_⟩
  intro k
  have h5 : afterAbnormalCloses 5 = ⟨5, 6, none⟩ := rfl
  have hsplit : afterAbnormalCloses (5 + k) =
      (onClose 1006)^[k] (afterAbnormalCloses 5) := by
    unfold afterAbnormalCloses
    rw [Nat.add_comm, Function.iterate_add_apply]
  rw [hsplit, h5]
  exact (iterate_onClose_at_ceiling ⟨5, 6, none⟩ rfl k).2

/-- C3: the claim as stated is false on the code: the Deepgram channel's
`connect` does not dial the requested URL unchanged when the page is
secure — on a localhost page it overrides any requested URL with
`ws(s)://localhost:4000`. -/
theorem C3_counterexample :
    deepgramFinalUrl true true "wss://example.com:9000" = "wss://localhost:4000" ∧
    "wss://localhost:4000" ≠ "wss://example.com:9000" := by
  exact ⟨rfl, by decide⟩

/-- C3 (amended): in `useWebSocket.connect` the claim holds as stated —
on an insecure page a `wss://` URL is rewritten to `ws://` and the
substitution is reported to the caller as a non-fatal condition, and
otherwise the URL is dialed unchanged with nothing reported.  In
`useDeepgramTranscription.connect` the same downgrade is applied but never
reported, and on a localhost page the dialed URL is unconditionally
overridden to `ws(s)://localhost:4000`. -/
theorem C3_protocol_rewrite (url : String) :
    (startsWithWss url = true →
      connectFinalUrl false url = ("ws://" ++ String.mk (url.data.drop 6), true)) ∧
    (startsWithWss url = false → connectFinalUrl false url = (url, false)) ∧
    connectFinalUrl true url = (url, false) ∧
    (startsWithWss url = true →
      deepgramFinalUrl false false url = "ws://" ++ String.mk (url.data.drop 6)) ∧
    (∀ isHttps : Bool, deepgramFinalUrl isHttps true url =
      if isHttps then "wss://localhost:4000" else "ws://localhost:4000") := by
  refine ⟨?_, ?_, ?_, ?_, ?_⟩
  · intro h
    simp [connectFinalUrl, wssToWs, h]
  · intro h
    simp [connectFinalUrl, h]
  · simp [connectFinalUrl]
  · intro h
    simp [deepgramFinalUrl, wssToWs, h]
  · intro isHttps
    cases isHttps <;> simp [deepgramFinalUrl]

/-- Witness for `C3_protocol_rewrite` at the spec's scenario: page served
over `http://localhost`, requested URL `wss://localhost:4000`, rewritten to
`ws://localhost:4000` and reported; a `ws://` URL is dialed unchanged. -/
theorem C3_protocol_rewrite_witness :
    connectFinalUrl false "wss://localhost:4000" = ("ws://localhost:4000", true) ∧
    connectFinalUrl false "ws://localhost:4000" = ("ws://localhost:4000", false) := by
  constructor
  · have h := (C3_protocol_rewrite "wss://localhost:4000").1 (by decide)
    simpa using h
  · exact (C3_protocol_rewrite "ws://localhost:4000").2.1 (by decide)

/-- The candidate loop returns exactly the first candidate of the list
that both passes the type gate and fires its start signal in time. -/
theorem negotiate_fst_eq_find (cs : List RecorderCandidate) :
    (negotiateRecorder cs).1 = cs.find? trialSucceeds := by
  induction cs with
  | nil => rfl
  | cons c rest ih =>
      by_cases hg : passesTypeGate c = true
      · by_cases hs : c.startsWithinTimeout = true
        · simp [negotiateRecorder, hg, hs, List.find?, trialSucceeds]
        · simp only [Bool.not_eq_true] at hs
          simp [negotiateRecorder, hg, hs, List.find?, trialSucceeds, ih]
      · simp only [Bool.not_eq_true] at hg
        simp [negotiateRecorder, hg, List.find?, trialSucceeds, ih]

/-- Every trial recorder that fired its start signal was stopped
immediately; trials that never started are the only unstopped ones. -/
theorem negotiate_trials_stopped (cs : List RecorderCandidate) :
    ((negotiateRecorder cs).2.all
      fun t => t.stopped == t.cand.startsWithinTimeout) = true := by
  induction cs with
  | nil => rfl
  | cons c rest ih =>
      by_cases hg : passesTypeGate c = true
      · by_cases hs : c.startsWithinTimeout = true
        · simp [negotiateRecorder, hg, hs]
        · simp only [Bool.not_eq_true] at hs
          simp [negotiateRecorder, hg, hs, ih]
      · simp only [Bool.not_eq_true] at hg
        simp [negotiateRecorder, hg, ih]

/-- C4: for every ordered candidate list, encoder negotiation retains as
the live recorder the first candidate that both passes the support gate
(empty default type or platform-reported support) and fires its start
signal within the timeout; every trial that fired start was stopped
immediately; and when no candidate succeeds the session still reaches the
streaming state, merely without a recorder. -/
theorem C4_encoder_negotiation (cs : List RecorderCandidate) :
    (negotiateRecorder cs).1 = cs.find? trialSucceeds ∧
    ((negotiateRecorder cs).2.all
      fun t => t.stopped == t.cand.startsWithinTimeout) = true ∧
    (setupAudioRecording cs).streaming = true ∧
    (setupAudioRecording cs).recorder = cs.find? trialSucceeds :=
  ⟨negotiate_fst_eq_find cs, negotiate_trials_stopped cs, rfl,
   negotiate_fst_eq_find cs⟩

/-- Folding non-empty fragments into the buffer appends them in arrival
order. -/
theorem pushFragment_fold (frags : List (List Nat)) (acc : List (List Nat))
    (h : ∀ f ∈ frags, f.length > 0) :
    frags.foldl pushFragment acc = acc ++ frags := by
  induction frags generalizing acc with
  | nil => simp
  | cons f rest ih =>
      have hf : f.length > 0 := h f (List.mem_cons_self f rest)
      have hrest : ∀ g ∈ rest, g.length > 0 :=
        fun g hg => h g (List.mem_cons_of_mem f hg)
      simp only [List.foldl_cons, pushFragment, if_pos hf]
      rw [ih (acc ++ [f]) hrest, List.append_assoc]
      rfl

/-- C5: for every sequence of non-empty fragments collected since the last
flush, the flush combines exactly their concatenation in arrival order,
dispatches it precisely when the combined size exceeds 1000 bytes, and
clears the buffer. -/
theorem C5_chunk_aggregation (frags : List (List Nat))
    (h : ∀ f ∈ frags, f.length > 0) :
    (sendCollectedAudio (frags.foldl pushFragment [])).1 =
      (if frags.flatten.length > 1000 then some frags.flatten else none) ∧
    (sendCollectedAudio (frags.foldl pushFragment [])).2 = [] := by
  rw [pushFragment_fold frags [] h, List.nil_append]
  cases frags with
  | nil => simp [sendCollectedAudio]
  | cons f rest => simp [sendCollectedAudio]

/-- Witness for `C5_chunk_aggregation`: two 600-byte fragments collected
between two ticks are flushed as their 1200-byte concatenation, which is
dispatched. -/
theorem C5_chunk_aggregation_witness :
    (sendCollectedAudio ([b600, b600].foldl pushFragment [])).1 =
      some (b600 ++ b600) := by
  have h := (C5_chunk_aggregation [b600, b600] (by norm_num [b600])).1
  rw [h]
  norm_num [b600, List.length_replicate]

/-- C6: the claim as stated is false on the code: when a flush tick fires
with only the 600-byte fragment `b1` collected and `b2` arrives afterwards,
no dispatched chunk ever passes the threshold — the first flush discards
`b1` (the buffer is cleared even though nothing was dispatched), so the
next flush sees `b2` alone and discards it too. -/
theorem C6_counterexample :
    (sendCollectedAudio (pushFragment [] b600)).1 = none ∧
    (sendCollectedAudio
      (pushFragment (sendCollectedAudio (pushFragment [] b600)).2 b600)).1 =
      none := by
  constructor <;> norm_num [sendCollectedAudio, pushFragment, b600]

/-- C6 (amended): fragments `b1`(600B) and `b2`(600B) flushed together are
dispatched as one 1200-byte chunk, which passes the 1000-byte threshold; a
flush tick with only `b1`(600B) collected dispatches nothing and clears the
buffer, so `b1` is not combined with a later-arriving `b2`; a flush
containing only a 200-byte fragment is likewise discarded. -/
theorem C6_flush_scenarios :
    (sendCollectedAudio (pushFragment (pushFragment [] b600) b600)).1 =
      some (b600 ++ b600) ∧
    (b600 ++ b600).length = 1200 ∧
    sendCollectedAudio (pushFragment [] b600) = (none, []) ∧
    (sendCollectedAudio (pushFragment [] b200)).1 = none := by
  refine ⟨?_, by norm_num [b600], ?_, ?_⟩ <;>
    norm_num [sendCollectedAudio, pushFragment, b600, b200]

/-- C7: a `no-speech` recognition error leaves the whole session state
untouched (no error surfaced, the listening flag unchanged), while the
permission, network, audio-capture and service-not-allowed errors each
surface a descriptive message and clear the listening flag. -/
theorem C7_recognition_errors (s : SpeechState) :
    recOnError s .noSpeech = s ∧
    recOnError s .notAllowed =
      ⟨false, some "Microphone permission denied. Please allow microphone access."⟩ ∧
    recOnError s .network =
      ⟨false, some "Network error during speech recognition"⟩ ∧
    recOnError s .audioCapture =
      ⟨false, some "Microphone access denied or not available"⟩ ∧
    recOnError s .serviceNotAllowed =
      ⟨false, some "Speech recognition service not allowed"⟩ :=
  ⟨rfl, rfl, rfl, rfl, rfl⟩

/-- C8: the code contradicts the claim (and its own comment, "auto-restart
if we're supposed to be listening"): `stopListening` changes no session
state, so the `ended` event the engine fires in response to a caller's
stop still sees the listening flag set with no error and schedules an
auto-restart; only after that `ended` has cleared the flag would a further
`ended` schedule none. -/
theorem C8_restart_after_stop :
    stopListening activeSession = activeSession ∧
    (recOnEnd (stopListening activeSession)).2 = true ∧
    (recOnEnd activeSession).1.isListening = false ∧
    (recOnEnd (recOnEnd activeSession).1).2 = false :=
  ⟨rfl, rfl, rfl, rfl⟩

/-- C9: `stopMediaCapture` is idempotent — a second call produces exactly
the state of the first — and calling it on the idle state (nothing
running) is a no-op; after any call the streaming flag, every timer, the
animation frame, the stream ref and the audio-context ref are cleared, all
tracks of a held stream are stopped, and the recorder ref is either null
or holds an inactive recorder. -/
theorem C9_stop_idempotent (s : CaptureState) :
    stopMediaCapture (stopMediaCapture s) = stopMediaCapture s ∧
    stopMediaCapture idleCaptureState = idleCaptureState ∧
    (stopMediaCapture s).isStreaming = false ∧
    (stopMediaCapture s).streamRef = false ∧
    (stopMediaCapture s).frameInterval = false ∧
    (stopMediaCapture s).audioChunkTimer = false ∧
    (stopMediaCapture s).animationFrame = false ∧
    (stopMediaCapture s).audioContextRef = false ∧
    (!s.streamRef || (stopMediaCapture s).tracks.all (fun t => t)) = true ∧
    ((stopMediaCapture s).recorderRef = none ∨
      (stopMediaCapture s).recorderRef = some RecorderRunState.inactive) := by
  refine ⟨?_, rfl, rfl, rfl, rfl, rfl, rfl, rfl, ?_, ?_⟩
  · cases s with
    | mk tracks streamRef recorderRef frameInterval audioChunkTimer
        animationFrame audioContextRef analyserRef audioChunks isStreaming =>
      cases recorderRef with
      | none => simp [stopMediaCapture]
      | some st => cases st <;> simp [stopMediaCapture]
  · cases hs : s.streamRef
    · simp [stopMediaCapture, hs]
    · simp [stopMediaCapture, hs, List.all_eq_true]
  · cases s with
    | mk tracks streamRef recorderRef frameInterval audioChunkTimer
        animationFrame audioContextRef analyserRef audioChunks isStreaming =>
      cases recorderRef with
      | none => left; simp [stopMediaCapture]
      | some st =>
          cases st with
          | recording => left; simp [stopMediaCapture]
          | paused => left; simp [stopMediaCapture]
          | inactive => right; simp [stopMediaCapture]

/-- C10: a POST to `/api/vision-analysis` without a truthy `base64Image`
is answered 400 with `{error: "Image is required"}` and the backend is
never contacted; when the backend answers non-ok, its status code and
error text are propagated instead of a result. -/
theorem C10_vision_route (img : Option String) (backend : BackendResponse) :
    (isTruthyImage img = false →
      visionAnalysisPOST img backend =
        ⟨400, .errorBody "Image is required", false⟩) ∧
    (isTruthyImage img = true → backend.ok = false →
      visionAnalysisPOST img backend =
        ⟨backend.status, .errorBody backend.bodyText, true⟩) := by
  constructor
  · intro h
    simp [visionAnalysisPOST, h]
  · intro h hok
    simp [visionAnalysisPOST, h, hok]

/-- Witness for `C10_vision_route`: a request with no image field is
rejected 400 without contacting the backend, and a 502 backend failure is
propagated. -/
theorem C10_vision_route_witness :
    visionAnalysisPOST none ⟨true, 200, "", "r"⟩ =
      ⟨400, .errorBody "Image is required", false⟩ ∧
    visionAnalysisPOST (some "abc") ⟨false, 502, "upstream down", ""⟩ =
      ⟨502, .errorBody "upstream down", true⟩ :=
  ⟨(C10_vision_route none ⟨true, 200, "", "r"⟩).1 (by decide),
   (C10_vision_route (some "abc") ⟨false, 502, "upstream down", ""⟩).2
     (by decide) (by decide)⟩

